import Mathlib

/-!
Verification development for the Xiaomi fingerprint HAL adapter
(`aidl/fingerprint/Fingerprint.cpp`).  The definitions below are a shallow
embedding of that translation unit together with the android-base string
helpers it calls (`Split`, `ParseInt`) and the small slices of the vendor
HAL interface it interacts with (`hw_get_module_by_class`, module `open`,
`set_notify`), modelled as explicit environments.
-/

namespace FingerprintHal

/-! ## android::base helpers -/

/-- `android::base::Split` with a single-character delimiter:
`find_first_of` loop that always yields at least one (possibly empty) part,
so `Split("", d) = [""]` and a trailing delimiter yields a trailing `""`. -/
def splitGo (d : Char) : List Char → List Char → List String
  | [], acc => [String.mk acc.reverse]
  | c :: cs, acc =>
      if c = d then String.mk acc.reverse :: splitGo d cs []
      else splitGo d cs (c :: acc)

/-- `android::base::Split(s, delim)` for the one-character delimiters used in
this file (`","`, `"|"`, `":"`). -/
def androidSplit (s : String) (d : Char) : List String :=
  splitGo d s.data []

/-- C-locale `isspace`, as skipped by `strtoll` before the number. -/
def isSpaceC (c : Char) : Bool :=
  c = ' ' || c = '\t' || c = '\n' || c = '\x0b' || c = '\x0c' || c = '\r'

/-- Digit run at the head of the input: fails when there is no digit at all
(`strtoll` leaves `end == s`), or when a non-digit suffix remains
(`ParseInt` rejects unless the whole string is consumed). -/
def parseNatPart (cs : List Char) : Option Nat :=
  let ds := cs.takeWhile Char.isDigit
  let rest := cs.dropWhile Char.isDigit
  if ds.isEmpty then none
  else if rest.isEmpty then
    some (ds.foldl (fun n c => n * 10 + (c.toNat - 48)) 0)
  else none

/-- `strtoll(s, &end, 10)` followed by `ParseInt`'s whole-string check:
leading C whitespace is skipped, an optional sign is consumed, then a
non-empty digit run must reach the end of the string. -/
def parseIntCore (cs0 : List Char) : Option Int :=
  let cs := cs0.dropWhile isSpaceC
  match cs with
  | '-' :: rest => (parseNatPart rest).map (fun n => -(n : Int))
  | '+' :: rest => (parseNatPart rest).map (fun n => (n : Int))
  | _ => (parseNatPart cs).map (fun n => (n : Int))

/-- `android::base::ParseInt<int32_t>`: base-10 `strtoll` plus the
`[INT32_MIN, INT32_MAX]` range check. -/
def parseInt32 (s : String) : Option Int :=
  match parseIntCore s.data with
  | none => none
  | some v => if -2147483648 ≤ v ∧ v ≤ 2147483647 then some v else none

/-! ## Static constants (anonymous namespace of Fingerprint.cpp) -/

def MAX_ENROLLMENTS_PER_USER : Int := 5

def HW_COMPONENT_ID : String := "fingerprintSensor"

def HW_VERSION : String := "vendor/model/revision"

def FW_VERSION : String := "1.01"

def SERIAL_NUMBER : String := "00000001"

def SW_COMPONENT_ID : String := "matchingAlgorithm"

def SW_VERSION : String := "vendor/version/revision"

/-- `kModules`: the static ordered candidate list of `fingerprint_hal_t`
class names. -/
def kModules : List String :=
  ["fortsense", "fpc", "fpc_fod", "goodix", "goodix:gf_fingerprint",
   "goodix_fod", "goodix_fod6", "silead", "syna", "goodix_us"]

/-- `FINGERPRINT_HARDWARE_MODULE_ID` from the vendor HAL header. -/
def FINGERPRINT_HARDWARE_MODULE_ID : String := "fingerprint"

/-! ## Data model -/

inductive FingerprintSensorType
  | UNKNOWN
  | REAR
  | UNDER_DISPLAY_ULTRASONIC
  | UNDER_DISPLAY_OPTICAL
  | POWER_BUTTON
  | HOME_BUTTON
deriving DecidableEq, Repr

/-- AIDL `SensorLocation`; `display` defaults to the empty string when the
source text supplies only 3 fields. -/
structure SensorLocation where
  sensorLocationX : Int
  sensorLocationY : Int
  sensorRadius : Int
  display : String
deriving DecidableEq, Repr

structure ComponentInfo where
  componentId : String
  hardwareVersion : String
  firmwareVersion : String
  serialNumber : String
  softwareVersion : String
deriving DecidableEq, Repr

structure CommonProps where
  sensorId : Int
  sensorStrength : Int
  maxEnrollmentsPerUser : Int
  componentInfo : List ComponentInfo
deriving DecidableEq, Repr

structure SensorProps where
  commonProps : CommonProps
  sensorType : FingerprintSensorType
  sensorLocations : List SensorLocation
  supportsNavigationGestures : Bool
  supportsDetectInteraction : Bool
  halHandlesDisplayTouches : Bool
  halControlsIllumination : Bool
  touchDetectionParameters : Option Unit
deriving DecidableEq, Repr

/-- `ndk::ScopedAStatus` as produced by this translation unit. -/
inductive BinderStatus
  | ok
  | error (code : Int)
deriving DecidableEq, Repr

/-- The configuration collaborator (`FingerprintConfig`), one field per key
read by `Fingerprint.cpp`; `sensorTypeProp` is the value of key `"type"`. -/
structure FingerprintConfig where
  sensorTypeProp : String
  sensor_location : String
  sensor_id : Int
  sensor_strength : Int
  navigation_gesture : Bool
  detect_interaction : Bool
  display_touch : Bool
  control_illumination : Bool
deriving DecidableEq, Repr

/-! ## Vendor HAL environment

`openFingerprintHal` talks to the vendor module loader.  Its observable
behaviour on a `(class_name, module_id)` pair is captured by an environment:
`getModuleByClass` yields the module when `hw_get_module_by_class` returns 0
with a non-null module pointer (both failure modes collapse to `none`);
`hasOpenMethod` is `module->common.methods->open != nullptr`; `openResult`
is the device when `open` returns 0; `setNotifyOk` is whether
`set_notify(device, Fingerprint::notify)` returns 0. -/

structure FingerprintDevice where
  devId : Nat
  setNotifyOk : Bool
deriving DecidableEq, Repr

structure HwModule where
  hasOpenMethod : Bool
  openResult : Option FingerprintDevice
deriving DecidableEq, Repr

structure HalEnv where
  getModuleByClass : (moduleId : String) → (className : String) → Option HwModule

/-- `Fingerprint::openFingerprintHal`: load the module by (class, module id),
check the open method, open the device, register the notify callback; any
failure yields `nullptr`. -/
def openFingerprintHal (env : HalEnv) (class_name module_id : String) :
    Option FingerprintDevice :=
  match env.getModuleByClass module_id class_name with
  | none => none
  | some m =>
    if !m.hasOpenMethod then none
    else
      match m.openResult with
      | none => none
      | some fp_device =>
        if fp_device.setNotifyOk then some fp_device else none

/-- Candidate-identifier split from the constructor loop: split on `":"`;
two parts give (class, module id), otherwise the whole identifier is the
class and `FINGERPRINT_HARDWARE_MODULE_ID` the module id. -/
def classAndModuleId (module : String) : String × String :=
  match androidSplit module ':' with
  | [class_name, class_module_id] => (class_name, class_module_id)
  | _ => (module, FINGERPRINT_HARDWARE_MODULE_ID)

/-- One iteration of the constructor loop on a candidate. -/
def tryCandidate (env : HalEnv) (module : String) : Option FingerprintDevice :=
  let cm := classAndModuleId module
  openFingerprintHal env cm.1 cm.2

/-- The constructor's resolution loop over `kModules`: `mDevice` after the
loop (first success wins, `break`). -/
def resolveDriver (env : HalEnv) : List String → Option FingerprintDevice
  | [] => none
  | m :: rest =>
    match tryCandidate env m with
    | some d => some d
    | none => resolveDriver env rest

/-- The candidates the loop actually attempts, in order (stops after the
first success because of the `break`). -/
def attemptedCandidates (env : HalEnv) : List String → List String
  | [] => []
  | m :: rest =>
    match tryCandidate env m with
    | some _ => [m]
    | none => m :: attemptedCandidates env rest

/-! ## Sensor type resolution (constructor, one-shot) -/

/-- The `mSensorType` assignment chain of the constructor. -/
def sensorTypeOf (sensorTypeProp : String) : FingerprintSensorType :=
  if sensorTypeProp = "udfps" || sensorTypeProp = "udfps_optical" then
    if sensorTypeProp = "udfps" then FingerprintSensorType.UNDER_DISPLAY_ULTRASONIC
    else FingerprintSensorType.UNDER_DISPLAY_OPTICAL
  else if sensorTypeProp = "side" then FingerprintSensorType.POWER_BUTTON
  else if sensorTypeProp = "home" then FingerprintSensorType.HOME_BUTTON
  else if sensorTypeProp = "rear" then FingerprintSensorType.REAR
  else FingerprintSensorType.UNKNOWN

/-- Whether the constructor hits `UNIMPLEMENTED(FATAL)` (the final `else`). -/
def sensorTypeFatal (sensorTypeProp : String) : Bool :=
  !(sensorTypeProp = "udfps" || sensorTypeProp = "udfps_optical" ||
    sensorTypeProp = "side" || sensorTypeProp = "home" || sensorTypeProp = "rear")

/-! ## Adapter and session state -/

/-- The `Session` collaborator as visible from this translation unit: the
constructor arguments retained here plus the `isClosed` observation.
(The UDFPS handler and lockout tracker collaborators carry no state that
the claims mention.) -/
structure SessionState where
  userId : Int
  cbId : Nat
  device : Option FingerprintDevice
  closed : Bool
deriving DecidableEq, Repr

structure AdapterState where
  mDevice : Option FingerprintDevice
  mSensorType : FingerprintSensorType
  mSession : Option SessionState
  mConfig : FingerprintConfig
deriving DecidableEq, Repr

/-- `Fingerprint::Fingerprint`: run the resolution loop (exhaustion only
logs), then resolve the sensor type; an unrecognized type string hits
`UNIMPLEMENTED(FATAL)`, modelled as `none` (the process aborts, so no
adapter instance results). -/
def constructAdapter (env : HalEnv) (cfg : FingerprintConfig) :
    Option AdapterState :=
  let mDevice := resolveDriver env kModules
  if sensorTypeFatal cfg.sensorTypeProp then none
  else
    some { mDevice := mDevice, mSensorType := sensorTypeOf cfg.sensorTypeProp,
           mSession := none, mConfig := cfg }

/-! ## Location parsing (`Fingerprint::getSensorLocations`) -/

/-- One loop body iteration of `getSensorLocations` on one comma-entry:
the record pushed (if any) and whether the malformed-input `ALOGE` fired. -/
def parseLocEntry (loc : String) (entry : String) :
    Option SensorLocation × Bool :=
  if (androidSplit entry '|').length ≠ 3 ∧ (androidSplit entry '|').length ≠ 4 then
    (none, !loc.isEmpty)
  else
    match parseInt32 (androidSplit entry '|')[0]!,
          parseInt32 (androidSplit entry '|')[1]!,
          parseInt32 (androidSplit entry '|')[2]! with
    | some x, some y, some r =>
      if (androidSplit entry '|').length = 4 then
        if (androidSplit entry '|')[3]! = "" then (none, false)
        else (some { sensorLocationX := x, sensorLocationY := y,
                     sensorRadius := r,
                     display := (androidSplit entry '|')[3]! }, false)
      else
        (some { sensorLocationX := x, sensorLocationY := y,
                sensorRadius := r, display := "" }, false)
    | _, _, _ => (none, false)

/-- The `for` loop of `getSensorLocations`: accumulated records in push
order together with the number of malformed-input log events. -/
def locLoop (loc : String) : List String → List SensorLocation × Nat
  | [] => ([], 0)
  | e :: rest =>
    let pr := parseLocEntry loc e
    let tl := locLoop loc rest
    match pr.1 with
    | some l => (l :: tl.1, (if pr.2 then 1 else 0) + tl.2)
    | none => (tl.1, (if pr.2 then 1 else 0) + tl.2)

/-- `Fingerprint::getSensorLocations` on the configured `sensor_location`
string, also reporting the malformed-input log count. -/
def getSensorLocationsFull (loc : String) : List SensorLocation × Nat :=
  locLoop loc (androidSplit loc ',')

def getSensorLocations (loc : String) : List SensorLocation :=
  (getSensorLocationsFull loc).1

/-! ## getSensorProps, createSession, notify -/

/-- The fixed `componentInfo` initializer of `getSensorProps`. -/
def componentInfoList : List ComponentInfo :=
  [{ componentId := HW_COMPONENT_ID, hardwareVersion := HW_VERSION,
     firmwareVersion := FW_VERSION, serialNumber := SERIAL_NUMBER,
     softwareVersion := "" },
   { componentId := SW_COMPONENT_ID, hardwareVersion := "",
     firmwareVersion := "", serialNumber := "",
     softwareVersion := SW_VERSION }]

/-- `Fingerprint::getSensorProps`: builds the single descriptor from the
configuration, the construction-time sensor type and the freshly parsed
locations, writes it to `*out` and returns ok. -/
def getSensorProps (a : AdapterState) : BinderStatus × List SensorProps :=
  let commonProps : CommonProps :=
    { sensorId := a.mConfig.sensor_id,
      sensorStrength := a.mConfig.sensor_strength,
      maxEnrollmentsPerUser := MAX_ENROLLMENTS_PER_USER,
      componentInfo := componentInfoList }
  (BinderStatus.ok,
   [{ commonProps := commonProps, sensorType := a.mSensorType,
      sensorLocations := getSensorLocations a.mConfig.sensor_location,
      supportsNavigationGestures := a.mConfig.navigation_gesture,
      supportsDetectInteraction := a.mConfig.detect_interaction,
      halHandlesDisplayTouches := a.mConfig.display_touch,
      halControlsIllumination := a.mConfig.control_illumination,
      touchDetectionParameters := none }])

/-- The `CHECK(mSession == nullptr || mSession->isClosed())` condition. -/
def sessionCheckOk (a : AdapterState) : Bool :=
  match a.mSession with
  | none => true
  | some s => s.closed

/-- `Fingerprint::createSession`: fatal `CHECK` (modelled as `none`) when an
open session exists; otherwise builds a new `Session` from `mDevice`, the
user id and the callback sink, installs it as `mSession`, links it to the
callback's death and returns ok.  The result carries the new adapter state,
the session written to `*out` and the returned status. -/
def createSession (a : AdapterState) (userId : Int) (cb : Nat) :
    Option (AdapterState × SessionState × BinderStatus) :=
  if sessionCheckOk a then
    let s : SessionState :=
      { userId := userId, cbId := cb, device := a.mDevice, closed := false }
    some ({ a with mSession := some s }, s, BinderStatus.ok)
  else none

/-- `Fingerprint::notify`: the static driver callback.  `sInstance` is the
process-wide most-recent adapter (possibly none); the result is the list of
`mSession->notify(msg)` calls made (the raw message forwarded unchanged),
empty when the event is discarded. -/
def notify {α : Type} (sInstance : Option AdapterState) (msg : α) : List α :=
  match sInstance with
  | none => []
  | some thisPtr =>
    match thisPtr.mSession with
    | none => []
    | some s => if s.closed then [] else [msg]

/-! ## Concrete fixtures (for instantiating the theorems) -/

/-- A loader in which no module ever resolves. -/
def envNone : HalEnv :=
  { getModuleByClass := fun _ _ => none }

def devGoodix : FingerprintDevice :=
  { devId := 7, setNotifyOk := true }

/-- A loader in which exactly the class `"goodix"` resolves, opens and
registers successfully. -/
def envGoodix : HalEnv :=
  { getModuleByClass := fun _ cn =>
      if cn = "goodix" then
        some { hasOpenMethod := true, openResult := some devGoodix }
      else none }

def cfgRear : FingerprintConfig :=
  { sensorTypeProp := "rear", sensor_location := "10|20|5,30|40|6|disp1",
    sensor_id := 1, sensor_strength := 2, navigation_gesture := false,
    detect_interaction := false, display_touch := false,
    control_illumination := false }

def cfgFoo : FingerprintConfig :=
  { cfgRear with sensorTypeProp := "foo" }

/-- The degraded adapter: all candidates failed, sensor type `"rear"`. -/
def adapterRear : AdapterState :=
  { mDevice := none, mSensorType := FingerprintSensorType.REAR,
    mSession := none, mConfig := cfgRear }

def sessionOpen : SessionState :=
  { userId := 1, cbId := 10, device := none, closed := false }

def sessionClosed : SessionState :=
  { sessionOpen with closed := true }

/-- The adapter after `createSession(_, 1, cb 10)` on `adapterRear`. -/
def adapterRearS1 : AdapterState :=
  { adapterRear with mSession := some sessionOpen }

end FingerprintHal

namespace FingerprintHal

/-! ## Helper lemmas -/

/-- The resolution loop yields `none` exactly on list exhaustion. -/
theorem resolveDriver_eq_none_of_all_fail (env : HalEnv) (mods : List String)
    (h : ∀ m ∈ mods, tryCandidate env m = none) :
    resolveDriver env mods = none := by
  induction mods with
  | nil => rfl
  | cons m rest ih =>
    have hm : tryCandidate env m = none := h m (by simp)
    have hrest : ∀ m' ∈ rest, tryCandidate env m' = none := by
      intro m' hmem
      exact h m' (by simp [hmem])
    simp [resolveDriver, hm, ih hrest]

/-- The location loop keeps exactly the per-entry successes, in order. -/
theorem locLoop_fst (loc : String) (es : List String) :
    (locLoop loc es).1 = es.filterMap (fun e => (parseLocEntry loc e).1) := by
  induction es with
  | nil => rfl
  | cons e rest ih =>
    cases hpe : (parseLocEntry loc e).1 with
    | none => simp [locLoop, hpe, List.filterMap_cons, ih]
    | some l => simp [locLoop, hpe, List.filterMap_cons, ih]

/-- A record produced from one comma-entry carries a non-empty display
string exactly when that entry had 4 pipe-fields. -/
theorem parseLocEntry_display (loc e : String) (l : SensorLocation)
    (h : (parseLocEntry loc e).1 = some l) :
    ((androidSplit e '|').length = 4 ↔ l.display ≠ "") := by
  unfold parseLocEntry at h
  split at h
  · simp at h
  · split at h
    · split at h
      next h4 =>
        split at h
        next hd => simp at h
        next hd =>
          simp only [Option.some.injEq] at h
          rw [← h]
          simpa [h4] using hd
      next h4 =>
        simp only [Option.some.injEq] at h
        rw [← h]
        simp [h4]
    · simp at h

/-! ## Claim theorems -/

/-- C1: Driver resolution tries the static candidate list strictly in
declared order and stops at the first candidate for which load, open, and
callback registration all succeed; every candidate before the first success
is attempted (each failure moves on to the next one) and no candidate after
it is attempted. -/
theorem C1_driver_resolution_first_success (env : HalEnv) (pre : List String)
    (m : String) (post : List String) (d : FingerprintDevice)
    (hpre : ∀ m' ∈ pre, tryCandidate env m' = none)
    (hm : tryCandidate env m = some d) :
    resolveDriver env (pre ++ m :: post) = some d ∧
      attemptedCandidates env (pre ++ m :: post) = pre ++ [m] := by
  induction pre with
  | nil => simp [resolveDriver, attemptedCandidates, hm]
  | cons p ps ih =>
    have hp : tryCandidate env p = none := hpre p (by simp)
    have hps : ∀ m' ∈ ps, tryCandidate env m' = none := by
      intro m' hmem
      exact hpre m' (by simp [hmem])
    have hih := ih hps
    simp [resolveDriver, attemptedCandidates, hp, hih.1, hih.2]

/-- Witness for C1: with a loader where only class `"goodix"` works, the
three candidates before `"goodix"` in `kModules` all fail, resolution
returns the goodix device, and exactly the first four candidates are
attempted. -/
theorem C1_witness :
    resolveDriver envGoodix
        (["fortsense", "fpc", "fpc_fod"] ++ "goodix" ::
          ["goodix:gf_fingerprint", "goodix_fod", "goodix_fod6", "silead",
           "syna", "goodix_us"]) = some devGoodix ∧
      attemptedCandidates envGoodix
          (["fortsense", "fpc", "fpc_fod"] ++ "goodix" ::
            ["goodix:gf_fingerprint", "goodix_fod", "goodix_fod6", "silead",
             "syna", "goodix_us"]) = ["fortsense", "fpc", "fpc_fod"] ++ ["goodix"] :=
  C1_driver_resolution_first_success envGoodix ["fortsense", "fpc", "fpc_fod"]
    "goodix"
    ["goodix:gf_fingerprint", "goodix_fod", "goodix_fod6", "silead", "syna",
     "goodix_us"]
    devGoodix (by decide) (by decide)

/-- C2: the configured `"type"` string maps exactly per the table
(`udfps`, `udfps_optical`, `side`, `home`, `rear`); any other string yields
`UNKNOWN` together with the fatal construction error, so no adapter instance
results. -/
theorem C2_sensor_type_mapping :
    sensorTypeOf "udfps" = FingerprintSensorType.UNDER_DISPLAY_ULTRASONIC ∧
    sensorTypeOf "udfps_optical" = FingerprintSensorType.UNDER_DISPLAY_OPTICAL ∧
    sensorTypeOf "side" = FingerprintSensorType.POWER_BUTTON ∧
    sensorTypeOf "home" = FingerprintSensorType.HOME_BUTTON ∧
    sensorTypeOf "rear" = FingerprintSensorType.REAR ∧
    (∀ s : String, s ≠ "udfps" → s ≠ "udfps_optical" → s ≠ "side" →
      s ≠ "home" → s ≠ "rear" →
      sensorTypeOf s = FingerprintSensorType.UNKNOWN ∧
        sensorTypeFatal s = true ∧
        ∀ (env : HalEnv) (cfg : FingerprintConfig), cfg.sensorTypeProp = s →
          constructAdapter env cfg = none) := by
  refine ⟨by decide, by decide, by decide, by decide, by decide, ?_⟩
  intro s h1 h2 h3 h4 h5
  have hfatal : sensorTypeFatal s = true := by
    simp [sensorTypeFatal, h1, h2, h3, h4, h5]
  refine ⟨?_, hfatal, ?_⟩
  · simp [sensorTypeOf, h1, h2, h3, h4, h5]
  · intro env cfg hcfg
    simp [constructAdapter, hcfg, hfatal]

/-- Witness for C2: the unlisted string `"foo"` resolves to `UNKNOWN`, is
fatal, and construction with it yields no adapter. -/
theorem C2_witness :
    sensorTypeOf "foo" = FingerprintSensorType.UNKNOWN ∧
      sensorTypeFatal "foo" = true ∧
      constructAdapter envNone cfgFoo = none :=
  have h := C2_sensor_type_mapping.2.2.2.2.2 "foo" (by decide) (by decide)
    (by decide) (by decide) (by decide)
  ⟨h.1, h.2.1, h.2.2 envNone cfgFoo rfl⟩

/-- C3: from a state with no session, `createSession` succeeds and installs
an open session; a second `createSession` without the first session having
closed hits the fatal `CHECK` (no result); once the first session reports
closed, `createSession` succeeds again and installs the new session as the
active one. -/
theorem C3_create_session_contract (a : AdapterState) (u1 u2 u3 : Int)
    (c1 c2 c3 : Nat) (h : a.mSession = none) :
    ∃ a1 s1, createSession a u1 c1 = some (a1, s1, BinderStatus.ok) ∧
      a1.mSession = some s1 ∧ s1.closed = false ∧
      createSession a1 u2 c2 = none ∧
      ∃ a2 s2,
        createSession { a1 with mSession := some { s1 with closed := true } }
            u3 c3 = some (a2, s2, BinderStatus.ok) ∧
          a2.mSession = some s2 ∧ s2.closed = false := by
  have hck : sessionCheckOk a = true := by simp [sessionCheckOk, h]
  refine ⟨{ a with mSession := some { userId := u1, cbId := c1,
                                      device := a.mDevice, closed := false } },
          { userId := u1, cbId := c1, device := a.mDevice, closed := false },
          by simp [createSession, hck], rfl, rfl, ?_, ?_⟩
  · simp [createSession, sessionCheckOk]
  · refine ⟨{ a with mSession := some { userId := u3, cbId := c3,
                                        device := a.mDevice, closed := false } },
            { userId := u3, cbId := c3, device := a.mDevice, closed := false },
            by simp [createSession, sessionCheckOk], rfl, rfl⟩

/-- Witness for C3: the full create / fatal-second-create / close /
create-again scenario on the concrete degraded adapter. -/
theorem C3_witness :
    ∃ a1 s1, createSession adapterRear 1 10 = some (a1, s1, BinderStatus.ok) ∧
      a1.mSession = some s1 ∧ s1.closed = false ∧
      createSession a1 2 20 = none ∧
      ∃ a2 s2,
        createSession { a1 with mSession := some { s1 with closed := true } }
            3 30 = some (a2, s2, BinderStatus.ok) ∧
          a2.mSession = some s2 ∧ s2.closed = false :=
  C3_create_session_contract adapterRear 1 2 3 10 20 30 rfl

/-- C4: a raw driver event is forwarded unchanged exactly once to the
active session when the adapter instance exists and its session is open;
with no adapter instance, no session, or a closed session, nothing is
forwarded. -/
theorem C4_notify_routing {α : Type} (msg : α) (a : AdapterState)
    (s : SessionState) :
    notify (none : Option AdapterState) msg = [] ∧
    (a.mSession = none → notify (some a) msg = []) ∧
    (a.mSession = some s → s.closed = true → notify (some a) msg = []) ∧
    (a.mSession = some s → s.closed = false → notify (some a) msg = [msg]) := by
  refine ⟨rfl, ?_, ?_, ?_⟩
  · intro h1
    simp [notify, h1]
  · intro h1 h2
    simp [notify, h1, h2]
  · intro h1 h2
    simp [notify, h1, h2]

/-- Witness for C4: a concrete event is forwarded exactly once to an open
session and dropped in the three discard configurations. -/
theorem C4_witness :
    notify (some { adapterRear with mSession := some sessionOpen }) (42 : Nat) = [42] ∧
      notify (some { adapterRear with mSession := some sessionClosed }) (42 : Nat) = [] ∧
      notify (some adapterRear) (42 : Nat) = [] ∧
      notify (none : Option AdapterState) (42 : Nat) = [] :=
  ⟨(C4_notify_routing 42 { adapterRear with mSession := some sessionOpen }
      sessionOpen).2.2.2 rfl rfl,
   (C4_notify_routing 42 { adapterRear with mSession := some sessionClosed }
      sessionClosed).2.2.1 rfl rfl,
   (C4_notify_routing 42 adapterRear sessionOpen).2.1 rfl,
   (C4_notify_routing (42 : Nat) adapterRear sessionOpen).1⟩

/-- C5: location parsing never fails and is order-preserving: the worked
examples parse exactly as stated (with the malformed-input log firing only
for the non-empty malformed input), and in general the output is the
in-order sequence of per-entry successes — malformed entries are skipped
without affecting the others. -/
theorem C5_location_parsing :
    getSensorLocationsFull "10|20|5,30|40|6|disp1" =
      ([{ sensorLocationX := 10, sensorLocationY := 20, sensorRadius := 5,
          display := "" },
        { sensorLocationX := 30, sensorLocationY := 40, sensorRadius := 6,
          display := "disp1" }], 0) ∧
    getSensorLocationsFull "" = ([], 0) ∧
    getSensorLocationsFull "1|2" = ([], 1) ∧
    ∀ loc : String, getSensorLocations loc =
      (androidSplit loc ',').filterMap (fun e => (parseLocEntry loc e).1) := by
  refine ⟨by decide, by decide, by decide, ?_⟩
  intro loc
  exact locLoop_fst loc (androidSplit loc ',')

/-- Counterexample to C6 as stated: the entry `"1|2|-3"` parses successfully
(`ParseInt<int32_t>` accepts negative values and the code never checks the
sign), producing a record with radius `-3 < 0`. -/
theorem C6_counterexample :
    ∃ l ∈ getSensorLocations "1|2|-3", l.sensorRadius < 0 := by decide

/-- C6 (amended): every record produced by location parsing comes from one
comma-entry, and its display string is non-empty exactly when that entry
supplied 4 pipe-fields; the radius is whatever int32 the third field parsed
to and may be negative. -/
theorem C6_display_presence (loc : String) (l : SensorLocation)
    (hl : l ∈ getSensorLocations loc) :
    ∃ e ∈ androidSplit loc ',', (parseLocEntry loc e).1 = some l ∧
      ((androidSplit e '|').length = 4 ↔ l.display ≠ "") := by
  have hl' : l ∈ (locLoop loc (androidSplit loc ',')).1 := hl
  rw [locLoop_fst] at hl'
  rcases List.mem_filterMap.mp hl' with ⟨e, he, hpe⟩
  exact ⟨e, he, hpe, parseLocEntry_display loc e l hpe⟩

/-- Witness for the amended C6: the 4-field record of the worked example. -/
theorem C6_witness :
    ∃ e ∈ androidSplit "10|20|5,30|40|6|disp1" ',',
      (parseLocEntry "10|20|5,30|40|6|disp1" e).1 =
          some { sensorLocationX := 30, sensorLocationY := 40,
                 sensorRadius := 6, display := "disp1" } ∧
        ((androidSplit e '|').length = 4 ↔
          ({ sensorLocationX := 30, sensorLocationY := 40, sensorRadius := 6,
             display := "disp1" } : SensorLocation).display ≠ "") :=
  C6_display_presence "10|20|5,30|40|6|disp1"
    { sensorLocationX := 30, sensorLocationY := 40, sensorRadius := 6,
      display := "disp1" } (by decide)

/-- Counterexample to C7 as stated: with a loader in which every candidate
fails, construction completes and holds a null driver handle, but
`createSession` does not report a device-unavailable condition — it succeeds
with an ok status, installing a session bound to the null handle. -/
theorem C7_counterexample :
    resolveDriver envNone kModules = none ∧
    constructAdapter envNone cfgRear = some adapterRear ∧
    createSession adapterRear 1 10 =
      some (adapterRearS1, sessionOpen, BinderStatus.ok) := by decide

/-- C7 (amended): when every candidate fails, adapter construction
completes without raising (provided the sensor type string is recognized)
and the adapter holds a null driver handle; `createSession` does not signal
device-unavailable — it still returns ok, handing the null driver handle to
the new session. -/
theorem C7_degraded_construction (env : HalEnv)
    (hfail : ∀ m ∈ kModules, tryCandidate env m = none)
    (cfg : FingerprintConfig)
    (hty : sensorTypeFatal cfg.sensorTypeProp = false)
    (u : Int) (c : Nat) :
    ∃ a, constructAdapter env cfg = some a ∧ a.mDevice = none ∧
      ∃ a1 s1, createSession a u c = some (a1, s1, BinderStatus.ok) ∧
        s1.device = none := by
  have hres : resolveDriver env kModules = none :=
    resolveDriver_eq_none_of_all_fail env kModules hfail
  refine ⟨{ mDevice := none, mSensorType := sensorTypeOf cfg.sensorTypeProp,
            mSession := none, mConfig := cfg }, ?_, rfl, ?_⟩
  · simp [constructAdapter, hres, hty]
  · refine ⟨{ mDevice := none, mSensorType := sensorTypeOf cfg.sensorTypeProp,
              mSession := some { userId := u, cbId := c, device := none,
                                 closed := false },
              mConfig := cfg },
            { userId := u, cbId := c, device := none, closed := false },
            ?_, rfl⟩
    simp [createSession, sessionCheckOk]

/-- Witness for the amended C7: the all-fail loader with the `"rear"`
configuration. -/
theorem C7_witness :
    ∃ a, constructAdapter envNone cfgRear = some a ∧ a.mDevice = none ∧
      ∃ a1 s1, createSession a 1 10 = some (a1, s1, BinderStatus.ok) ∧
        s1.device = none :=
  C7_degraded_construction envNone (by decide) cfgRear (by decide) 1 10

/-- C8: every `getSensorProps` call yields exactly one descriptor, with
`maxEnrollmentsPerUser = 5` and exactly the two fixed component-info
records (hardware and software). -/
theorem C8_sensor_props (a : AdapterState) :
    ∃ p, (getSensorProps a).2 = [p] ∧
      p.commonProps.maxEnrollmentsPerUser = 5 ∧
      p.commonProps.componentInfo =
        [{ componentId := "fingerprintSensor",
           hardwareVersion := "vendor/model/revision",
           firmwareVersion := "1.01", serialNumber := "00000001",
           softwareVersion := "" },
         { componentId := "matchingAlgorithm", hardwareVersion := "",
           firmwareVersion := "", serialNumber := "",
           softwareVersion := "vendor/version/revision" }] := by
  refine ⟨_, rfl, rfl, ?_⟩
  rfl

/-- C9: each candidate identifier is split on `":"`; two parts give
(driver class, module-group id), any other shape uses the whole identifier
as the class with the fixed default module-group id. -/
theorem C9_candidate_split (m a b : String) :
    (androidSplit m ':' = [a, b] → classAndModuleId m = (a, b)) ∧
    ((androidSplit m ':').length ≠ 2 →
      classAndModuleId m = (m, FINGERPRINT_HARDWARE_MODULE_ID)) := by
  constructor
  · intro h
    unfold classAndModuleId
    rw [h]
  · intro h
    unfold classAndModuleId
    rcases hs : androidSplit m ':' with _ | ⟨x, _ | ⟨y, _ | ⟨z, zs⟩⟩⟩
    · rfl
    · rfl
    · exact absurd (by simp [hs]) h
    · rfl

/-- Witness for C9: a two-part identifier from `kModules` and a plain one. -/
theorem C9_witness :
    classAndModuleId "goodix:gf_fingerprint" = ("goodix", "gf_fingerprint") ∧
      classAndModuleId "fpc" = ("fpc", FINGERPRINT_HARDWARE_MODULE_ID) :=
  ⟨(C9_candidate_split "goodix:gf_fingerprint" "goodix" "gf_fingerprint").1
      (by decide),
   (C9_candidate_split "fpc" "a" "b").2 (by decide)⟩

/-- C10: whenever `getSensorProps` or `createSession` returns (rather than
hitting the fatal session `CHECK`), the returned status is ok. -/
theorem C10_status_always_ok (a : AdapterState) (u : Int) (c : Nat) :
    (getSensorProps a).1 = BinderStatus.ok ∧
    ∀ r, createSession a u c = some r → r.2.2 = BinderStatus.ok := by
  refine ⟨rfl, ?_⟩
  intro r hr
  unfold createSession at hr
  split at hr
  · simp only [Option.some.injEq] at hr
    rw [← hr]
  · simp at hr

/-- Witness for C10: the concrete degraded adapter. -/
theorem C10_witness :
    (getSensorProps adapterRear).1 = BinderStatus.ok ∧
      ((adapterRearS1, sessionOpen, BinderStatus.ok) :
         AdapterState × SessionState × BinderStatus).2.2 = BinderStatus.ok :=
  ⟨(C10_status_always_ok adapterRear 1 10).1,
   (C10_status_always_ok adapterRear 1 10).2 _ (by decide)⟩

end FingerprintHal
